import Mathlib

/-!
Shallow embedding of `openstack_swift_exporter` (files `exporter.go`, `main.go`).

The exporter polls a Swift recon endpoint, decodes JSON maps, extracts numeric
fields as labelled samples and folds them into a map of gauge families.
Go `float64` values are modelled by `ℚ` (values are only carried, never
computed with), a decoded `map[string]interface{}` by an association list
`List (String × JsonValue)`, and the upstream HTTP server by a function from
URL to `Option` of a decoded body (`none` models a fetch or JSON-decode
error, which `request` reports as a non-nil `err`).
-/

namespace SwiftExporter

/-- Model of a decoded JSON value (`interface{}` after `encoding/json`):
numbers decode to `float64` (here `ℚ`), nested objects to
`map[string]interface{}` (here an association list). -/
inductive JsonValue where
  | num (v : ℚ)
  | str (s : String)
  | bool (b : Bool)
  | null
  | arr (xs : List JsonValue)
  | obj (fields : List (String × JsonValue))

/-- Go type assertion `.(float64)` on an `interface{}` value. -/
def asFloat : JsonValue → Option ℚ
  | JsonValue.num v => some v
  | _ => none

/-- Go type assertion `.(map[string]interface{})` on an `interface{}` value. -/
def asObj : JsonValue → Option (List (String × JsonValue))
  | JsonValue.obj fields => some fields
  | _ => none

/-- A decoded JSON response body, `map[string]interface{}` in the source. -/
abbrev Json := List (String × JsonValue)

/-- First-match lookup in an association list (a Go map read `res[key]`;
a Go map has no duplicate keys, so first-match is exact on its image). -/
def lookupAssoc {α : Type} : List (String × α) → String → Option α
  | [], _ => none
  | (k, v) :: rest, key => if k = key then some v else lookupAssoc rest key

/-- The upstream recon server: a function from request URL to decoded body,
`none` standing for a transport failure or a decode failure. -/
abbrev Upstream := String → Option Json

/-- `request` (exporter.go:178-190): GET `Addr + "/recon/" + method` and
JSON-decode the body; callers only use the result when `err == nil`. -/
def request (up : Upstream) (addr method : String) : Option Json :=
  up (addr ++ "/recon/" ++ method)

/-- `scrapeResult` (exporter.go:24-29): one sample. Go's `Type` field is
written `type` here (`Type` is reserved in Lean); `type`/`status` default
to `""` like Go zero-valued string fields. -/
@[ext]
structure ScrapeResult where
  name : String
  value : ℚ
  type : String := ""
  status : String := ""
  deriving DecidableEq, Repr

/-- `scrapeAsync` (exporter.go:192-201): on error return no samples; else
emit `async{status="pending"}` when `async_pending` is a float. -/
def scrapeAsync (up : Upstream) (addr : String) : List ScrapeResult :=
  match request up addr "async" with
  | none => []
  | some res =>
    match (lookupAssoc res "async_pending").bind asFloat with
    | some pending => [{ name := "async", value := pending, status := "pending" }]
    | none => []

/-- Body of the `for status, value := range replication_stats` loop
(exporter.go:217-224): skip the key `failure_nodes`, emit one sample per
key whose value passes the `.(float64)` assertion. -/
def replicationStatsSamples (t : String) : List (String × JsonValue) → List ScrapeResult
  | [] => []
  | (status, value) :: rest =>
    if status = "failure_nodes" then replicationStatsSamples t rest
    else
      match asFloat value with
      | some v =>
          { name := "replication_stats", value := v, type := t, status := status }
            :: replicationStatsSamples t rest
      | none => replicationStatsSamples t rest

/-- Samples extracted from one successful `replication/<t>` response
(exporter.go:210-225). -/
def replicationResSamples (t : String) (res : Json) : List ScrapeResult :=
  (match (lookupAssoc res "replication_time").bind asFloat with
   | some replication_time =>
       [{ name := "replication_time", value := replication_time, type := t }]
   | none => []) ++
  (match (lookupAssoc res "replication_last").bind asFloat with
   | some replication_last =>
       [{ name := "replication_last", value := replication_last, type := t }]
   | none => []) ++
  (match (lookupAssoc res "replication_stats").bind asObj with
   | some replication_stats => replicationStatsSamples t replication_stats
   | none => [])

/-- The `for _, t := range types` loop of `scrapeReplication`
(exporter.go:204-226): a fetch/decode error for the current type `return`s,
discarding the remaining types; samples already sent stay sent. -/
def scrapeReplicationGo (up : Upstream) (addr : String) : List String → List ScrapeResult
  | [] => []
  | t :: ts =>
    match request up addr ("replication/" ++ t) with
    | none => []
    | some res => replicationResSamples t res ++ scrapeReplicationGo up addr ts

/-- `scrapeReplication` (exporter.go:202-227) over
`types = ["container", "account", "object"]`. -/
def scrapeReplication (up : Upstream) (addr : String) : List ScrapeResult :=
  scrapeReplicationGo up addr ["container", "account", "object"]

/-- The loop of `scrapeUpdater` (exporter.go:230-239). -/
def scrapeUpdaterGo (up : Upstream) (addr : String) : List String → List ScrapeResult
  | [] => []
  | t :: ts =>
    match request up addr ("updater/" ++ t) with
    | none => []
    | some res =>
      (match (lookupAssoc res (t ++ "_updater_sweep")).bind asFloat with
       | some sweep => [{ name := "updater_sweep", value := sweep, type := t }]
       | none => []) ++ scrapeUpdaterGo up addr ts

/-- `scrapeUpdater` (exporter.go:228-240) over `types = ["container", "object"]`. -/
def scrapeUpdater (up : Upstream) (addr : String) : List ScrapeResult :=
  scrapeUpdaterGo up addr ["container", "object"]

/-- The loop of `scrapeExpirer` (exporter.go:243-255). -/
def scrapeExpirerGo (up : Upstream) (addr : String) : List String → List ScrapeResult
  | [] => []
  | t :: ts =>
    match request up addr ("expirer/" ++ t) with
    | none => []
    | some res =>
      ((match (lookupAssoc res (t ++ "_expiration_pass")).bind asFloat with
        | some expiration_pass =>
            [{ name := "expirer_expiration_pass", value := expiration_pass, type := t }]
        | none => []) ++
       (match (lookupAssoc res "expired_last_pass").bind asFloat with
        | some expired_last_pass =>
            [{ name := "expirer_expired_last_pass", value := expired_last_pass, type := t }]
        | none => [])) ++ scrapeExpirerGo up addr ts

/-- `scrapeExpirer` (exporter.go:241-256) over `types = ["object"]`. -/
def scrapeExpirer (up : Upstream) (addr : String) : List ScrapeResult :=
  scrapeExpirerGo up addr ["object"]

/-- `scrapeQuarantined` (exporter.go:257-269): one fetch, then for each
type `t` read the pluralised key `t ++ "s"`. -/
def scrapeQuarantined (up : Upstream) (addr : String) : List ScrapeResult :=
  match request up addr "quarantined" with
  | none => []
  | some res =>
    (["container", "account", "object"] : List String).foldr
      (fun t acc =>
        (match (lookupAssoc res (t ++ "s")).bind asFloat with
         | some v => [{ name := "quarantined", value := v, type := t }]
         | none => []) ++ acc) []

/-- `scrape` (exporter.go:134-147): the five sub-scrapes in source order;
the channel handoff to `setMetrics` is modelled by concatenating the
emitted samples in emission order. -/
def scrape (up : Upstream) (addr : String) : List ScrapeResult :=
  scrapeAsync up addr ++ scrapeReplication up addr ++ scrapeUpdater up addr ++
    scrapeExpirer up addr ++ scrapeQuarantined up addr

/-- The label-value assignment passed to `GaugeVec.With` — a
`prometheus.Labels` map; in `setMetrics` it is built deterministically
(`type` first when non-empty, then `status`), so it is canonical as a list. -/
abbrev Labels := List (String × String)

/-- One `prometheus.GaugeVec` as the exporter observes it through
`NewGaugeVec`/`With`/`Set`/`Collect`: its `GaugeOpts` fields, the variable
label names, and the current label-tuple-to-value cells. Go's
`Namespace` opts field is written `ns` here (`namespace` is reserved in
Lean). A fresh vec has no cells. -/
structure GaugeVec where
  ns : String
  name : String
  help : String
  labelNames : List String
  cells : List (Labels × ℚ) := []
  deriving DecidableEq, Repr

/-- `Gauge.Set` at one label tuple inside a vec's cell map: overwrite the
first cell with these labels, or append a new cell (library behaviour of
`With(labels).Set(v)`). -/
def setCell : List (Labels × ℚ) → Labels → ℚ → List (Labels × ℚ)
  | [], l, v => [(l, v)]
  | (l0, v0) :: rest, l, v =>
    if l0 = l then (l, v) :: rest else (l0, v0) :: setCell rest l v

/-- `exp.metrics[name].With(labels).Set(v)` on the metrics map: update the
entry keyed `name` (present whenever `setMetrics` reaches this step) by
setting one cell; absent keys leave the map unchanged. -/
def setVecCell : List (String × GaugeVec) → String → Labels → ℚ → List (String × GaugeVec)
  | [], _, _, _ => []
  | (k, g) :: rest, name, l, v =>
    if k = name then (k, { g with cells := setCell g.cells l v }) :: rest
    else (k, g) :: setVecCell rest name l v

/-- `Exporter` (exporter.go:13-22): the scalar `duration`, `totalScrapes`
and `scrapeErrors` metrics are modelled by their current values (a fresh
prometheus Gauge/Counter starts at 0); Go's `namespace` field is written
`ns` here (`namespace` is reserved in Lean). Locks carry no state. -/
structure Exporter where
  Addr : String
  ns : String
  duration : ℚ := 0
  totalScrapes : ℚ := 0
  scrapeErrors : ℚ := 0
  metrics : List (String × GaugeVec) := []
  deriving DecidableEq, Repr

/-- `initGauges` (exporter.go:48-106): replace `exp.metrics` by the fixed
8-entry catalog and install fresh (zero-valued) `duration`,
`totalScrapes` and `scrapeErrors` scalars. -/
def initGauges (exp : Exporter) : Exporter :=
  { exp with
    metrics := [
      ("async",
        { ns := exp.ns, name := "async",
          help := "async metric", labelNames := ["status"] }),
      ("replication_time",
        { ns := exp.ns, name := "replication_time",
          help := "replication_time metric", labelNames := ["type"] }),
      ("replication_last",
        { ns := exp.ns, name := "replication_last",
          help := "replication_last metric", labelNames := ["type"] }),
      ("replication_stats",
        { ns := exp.ns, name := "replication_stats",
          help := "replication_stats metric", labelNames := ["type", "status"] }),
      ("updater_sweep",
        { ns := exp.ns, name := "updater_sweep",
          help := "updater_sweep metric", labelNames := ["type"] }),
      ("expirer_expiration_pass",
        { ns := exp.ns, name := "expirer_expiration_pass",
          help := "expirer_expiration_pass metric", labelNames := ["type"] }),
      ("expirer_expired_last_pass",
        { ns := exp.ns, name := "expired_last_pass",
          help := "expired_last_pass metric", labelNames := ["type"] }),
      ("quarantined",
        { ns := exp.ns, name := "quarantined",
          help := "quarantined metric", labelNames := ["type"] })],
    duration := 0,
    totalScrapes := 0,
    scrapeErrors := 0 }

/-- `Ping` (exporter.go:44-46): always succeeds (`nil` error). -/
def ping (_exp : Exporter) : Option String := none

/-- `NewSwiftExporter` (exporter.go:31-42): build the exporter with
namespace `swift`, ping, and on success init the gauges; the second
component is the returned error. -/
def newSwiftExporter (addr : String) : Exporter × Option String :=
  let exp : Exporter := { Addr := addr, ns := "swift" }
  match ping exp with
  | some err => (exp, some err)
  | none => (initGauges exp, none)

/-- The labels map built in `setMetrics` (exporter.go:161-167): add
`type` when `len(scr.Type) > 0`, then `status` when `len(scr.Status) > 0`. -/
def labelsOf (scr : ScrapeResult) : Labels :=
  (if scr.type.length > 0 then [("type", scr.type)] else []) ++
    (if scr.status.length > 0 then [("status", scr.status)] else [])

/-- Body of the `for scr := range scrapes` loop of `setMetrics`
(exporter.go:150-169): if the name has no entry, register a fresh
two-label `{type, status}` vec with help `name + " metric"`, then
set the value at the sample's label tuple. -/
def foldSample (ns : String) (metrics : List (String × GaugeVec))
    (scr : ScrapeResult) : List (String × GaugeVec) :=
  let metrics' :=
    match lookupAssoc metrics scr.name with
    | some _ => metrics
    | none =>
      metrics ++ [(scr.name,
        { ns := ns, name := scr.name, help := scr.name ++ " metric",
          labelNames := ["type", "status"] })]
  setVecCell metrics' scr.name (labelsOf scr) scr.value

/-- `setMetrics` (exporter.go:149-170): fold every received sample, in
channel order, into the metrics map. -/
def setMetrics (ns : String) (metrics : List (String × GaugeVec))
    (samples : List ScrapeResult) : List (String × GaugeVec) :=
  samples.foldl (foldSample ns) metrics

/-- One metric value pushed on the `Collect` channel: either one of the
three scalar pipeline-health metrics (identified by its `GaugeOpts` name)
or one labelled cell of a gauge family. -/
inductive Metric where
  | scalar (name : String) (value : ℚ)
  | sample (family : String) (labels : Labels) (value : ℚ)
  deriving DecidableEq, Repr

/-- `collectMetrics` (exporter.go:172-176): every entry yields all its
current cells. -/
def collectMetrics (metrics : List (String × GaugeVec)) : List Metric :=
  metrics.foldr
    (fun (e : String × GaugeVec) acc =>
      e.2.cells.map (fun c => Metric.sample e.2.name c.1 c.2) ++ acc) []

/-- `Collect` (exporter.go:108-122) together with the `scrape` goroutine
(exporter.go:134-147), sequentialised: `initGauges`; then the scrape pass
(`totalScrapes.Inc()`, the five sub-scrapes, `duration.Set(elapsed)` with
the measured wall-clock time passed in as `elapsed`); `setMetrics` folds
every sample before the channel closes; finally the three scalars and all
gauge cells are pushed to the caller. Returns the post-cycle exporter and
the pushed metrics in order. -/
def collect (exp : Exporter) (up : Upstream) (elapsed : ℚ) : Exporter × List Metric :=
  let e1 := initGauges exp
  let samples := scrape up e1.Addr
  let e2 := { e1 with
    totalScrapes := e1.totalScrapes + 1,
    duration := elapsed,
    metrics := setMetrics e1.ns e1.metrics samples }
  (e2,
    Metric.scalar "exporter_last_scrape_duration_seconds" e2.duration ::
    Metric.scalar "exporter_scrapes_total" e2.totalScrapes ::
    Metric.scalar "exporter_last_scrape_error" e2.scrapeErrors ::
    collectMetrics e2.metrics)

/-- Read the cell of a gauge family at one label tuple, as
`With(labels)` addresses it: the unique cell keyed by that tuple. -/
def lookupCell : List (Labels × ℚ) → Labels → Option ℚ
  | [], _ => none
  | (l0, v) :: rest, l => if l0 = l then some v else lookupCell rest l

/-- How many entries of the metrics map are registered under `name`. -/
def entryCount : List (String × GaugeVec) → String → ℕ
  | [], _ => 0
  | (k, _) :: rest, name => (if k = name then 1 else 0) + entryCount rest name

theorem lookupCell_setCell (cells : List (Labels × ℚ)) (l l' : Labels) (v : ℚ) :
    lookupCell (setCell cells l v) l' =
      if l' = l then some v else lookupCell cells l' := by
  induction cells with
  | nil =>
    by_cases h : l' = l
    · subst h; simp [setCell, lookupCell]
    · rw [if_neg h]
      simp only [setCell, lookupCell]
      rw [if_neg (fun h' => h h'.symm)]
  | cons c rest ih =>
    obtain ⟨l0, v0⟩ := c
    simp only [setCell]
    by_cases h0 : l0 = l
    · subst h0
      rw [if_pos rfl]
      simp only [lookupCell]
      by_cases h : l0 = l'
      · subst h
        rw [if_pos rfl, if_pos rfl]
      · rw [if_neg h, if_neg (fun h' => h h'.symm), if_neg h]
    · rw [if_neg h0]
      simp only [lookupCell]
      by_cases h : l0 = l'
      · subst h
        rw [if_pos rfl, if_neg (fun h' : l0 = l => h0 h'), if_pos rfl]
      · rw [if_neg h, ih]
        by_cases hl : l' = l
        · rw [if_pos hl, if_pos hl]
        · rw [if_neg hl, if_neg hl, if_neg h]

theorem keys_setVecCell (m : List (String × GaugeVec)) (n : String) (l : Labels) (v : ℚ) :
    (setVecCell m n l v).map Prod.fst = m.map Prod.fst := by
  induction m with
  | nil => simp [setVecCell]
  | cons e rest ih =>
    obtain ⟨k, g⟩ := e
    by_cases h : k = n <;> simp [setVecCell, h, ih]

theorem length_setVecCell (m : List (String × GaugeVec)) (n : String) (l : Labels) (v : ℚ) :
    (setVecCell m n l v).length = m.length := by
  have := congrArg List.length (keys_setVecCell m n l v)
  simpa using this

theorem lookupAssoc_setVecCell (m : List (String × GaugeVec)) (n : String) (l : Labels)
    (v : ℚ) (k : String) :
    lookupAssoc (setVecCell m n l v) k =
      if k = n then
        (lookupAssoc m n).map (fun g => { g with cells := setCell g.cells l v })
      else lookupAssoc m k := by
  induction m with
  | nil =>
    by_cases h : k = n <;> simp [setVecCell, lookupAssoc, h]
  | cons e rest ih =>
    obtain ⟨k0, g⟩ := e
    simp only [setVecCell]
    by_cases h0 : k0 = n
    · subst h0
      rw [if_pos rfl]
      simp only [lookupAssoc]
      by_cases h : k0 = k
      · subst h
        simp [lookupAssoc]
      · rw [if_neg h, if_neg (fun h' : k = k0 => h h'.symm), if_neg h]
    · rw [if_neg h0]
      simp only [lookupAssoc]
      by_cases h : k0 = k
      · subst h
        rw [if_pos rfl, if_neg (fun h' : k0 = n => h0 h'), if_pos rfl]
      · rw [if_neg h, ih]
        by_cases hn : k = n
        · rw [if_pos hn, if_pos hn, if_neg h0]
        · rw [if_neg hn, if_neg hn, if_neg h]

theorem lookupAssoc_append_self {α : Type} (m : List (String × α)) (k : String) (g : α)
    (h : lookupAssoc m k = none) :
    lookupAssoc (m ++ [(k, g)]) k = some g := by
  induction m with
  | nil => simp [lookupAssoc]
  | cons e rest ih =>
    obtain ⟨k0, g0⟩ := e
    by_cases h0 : k0 = k
    · subst h0
      simp [lookupAssoc] at h
    · simp only [List.cons_append, lookupAssoc, if_neg h0] at h ⊢
      exact ih h

theorem entryCount_eq_zero_of_lookupAssoc_none (m : List (String × GaugeVec)) (k : String)
    (h : lookupAssoc m k = none) : entryCount m k = 0 := by
  induction m with
  | nil => simp [entryCount]
  | cons e rest ih =>
    obtain ⟨k0, g0⟩ := e
    by_cases h0 : k0 = k
    · subst h0
      simp [lookupAssoc] at h
    · simp only [lookupAssoc, if_neg h0] at h
      simp only [entryCount, if_neg h0, ih h, Nat.zero_add]

theorem entryCount_setVecCell (m : List (String × GaugeVec)) (n : String) (l : Labels)
    (v : ℚ) (k : String) :
    entryCount (setVecCell m n l v) k = entryCount m k := by
  induction m with
  | nil => simp [setVecCell]
  | cons e rest ih =>
    obtain ⟨k0, g⟩ := e
    by_cases h : k0 = n <;> simp [setVecCell, h, entryCount, ih]

theorem entryCount_append (m m' : List (String × GaugeVec)) (k : String) :
    entryCount (m ++ m') k = entryCount m k + entryCount m' k := by
  induction m with
  | nil => simp [entryCount]
  | cons e rest ih =>
    obtain ⟨k0, g⟩ := e
    show (if k0 = k then 1 else 0) + entryCount (rest ++ m') k =
      ((if k0 = k then 1 else 0) + entryCount rest k) + entryCount m' k
    rw [ih]
    omega

theorem lookupAssoc_foldSample_self (ns : String) (metrics : List (String × GaugeVec))
    (scr : ScrapeResult) :
    ∃ g, lookupAssoc (foldSample ns metrics scr) scr.name = some g ∧
      lookupCell g.cells (labelsOf scr) = some scr.value := by
  cases hl : lookupAssoc metrics scr.name with
  | some g0 =>
    refine ⟨{ g0 with cells := setCell g0.cells (labelsOf scr) scr.value }, ?_, ?_⟩
    · simp only [foldSample, hl]
      rw [lookupAssoc_setVecCell, if_pos rfl, hl, Option.map_some']
    · rw [lookupCell_setCell, if_pos rfl]
  | none =>
    refine ⟨{ ns := ns, name := scr.name, help := scr.name ++ " metric",
              labelNames := ["type", "status"],
              cells := setCell [] (labelsOf scr) scr.value }, ?_, ?_⟩
    · simp only [foldSample, hl]
      rw [lookupAssoc_setVecCell, if_pos rfl, lookupAssoc_append_self _ _ _ hl,
        Option.map_some']
    · rw [lookupCell_setCell, if_pos rfl]

theorem asFloat_eq_some (j : JsonValue) (v : ℚ) :
    asFloat j = some v ↔ j = JsonValue.num v := by
  cases j <;> simp [asFloat]

theorem mem_replicationStatsSamples (t : String) (stats : List (String × JsonValue))
    (s : ScrapeResult) :
    s ∈ replicationStatsSamples t stats ↔
      (s.name = "replication_stats" ∧ s.type = t ∧ s.status ≠ "failure_nodes" ∧
        (s.status, JsonValue.num s.value) ∈ stats) := by
  induction stats with
  | nil => simp [replicationStatsSamples]
  | cons p rest ih =>
    obtain ⟨status, value⟩ := p
    by_cases hfn : status = "failure_nodes"
    · subst hfn
      rw [show replicationStatsSamples t (("failure_nodes", value) :: rest) =
            replicationStatsSamples t rest from rfl, ih]
      constructor
      · rintro ⟨h1, h2, h3, h4⟩
        exact ⟨h1, h2, h3, List.mem_cons_of_mem _ h4⟩
      · rintro ⟨h1, h2, h3, h4⟩
        rcases List.mem_cons.mp h4 with h4 | h4
        · rw [Prod.mk.injEq] at h4
          exact absurd h4.1 h3
        · exact ⟨h1, h2, h3, h4⟩
    · cases hv : asFloat value with
      | some v =>
        have hval : value = JsonValue.num v := (asFloat_eq_some value v).mp hv
        subst hval
        rw [show replicationStatsSamples t ((status, JsonValue.num v) :: rest) =
              (if status = "failure_nodes" then replicationStatsSamples t rest
               else { name := "replication_stats", value := v, type := t, status := status }
                 :: replicationStatsSamples t rest) from rfl,
            if_neg hfn]
        constructor
        · intro h
          rcases List.mem_cons.mp h with h | h
          · subst h
            exact ⟨rfl, rfl, hfn, List.mem_cons_self _ _⟩
          · obtain ⟨h1, h2, h3, h4⟩ := ih.mp h
            exact ⟨h1, h2, h3, List.mem_cons_of_mem _ h4⟩
        · rintro ⟨h1, h2, h3, h4⟩
          rcases List.mem_cons.mp h4 with h4 | h4
          · rw [Prod.mk.injEq] at h4
            obtain ⟨hs, hv2⟩ := h4
            have hv3 : s.value = v := by injection hv2
            have hseq : s =
                { name := "replication_stats", value := v, type := t, status := status } :=
              ScrapeResult.ext h1 hv3 h2 hs
            rw [hseq]
            exact List.mem_cons_self _ _
          · exact List.mem_cons_of_mem _ (ih.mpr ⟨h1, h2, h3, h4⟩)
      | none =>
        have hnotnum : ∀ w : ℚ, value ≠ JsonValue.num w := by
          intro w hw
          rw [hw] at hv
          simp [asFloat] at hv
        have hred : replicationStatsSamples t ((status, value) :: rest) =
            replicationStatsSamples t rest := by
          cases value <;> simp_all [replicationStatsSamples, asFloat, hfn]
        rw [hred, ih]
        constructor
        · rintro ⟨h1, h2, h3, h4⟩
          exact ⟨h1, h2, h3, List.mem_cons_of_mem _ h4⟩
        · rintro ⟨h1, h2, h3, h4⟩
          rcases List.mem_cons.mp h4 with h4 | h4
          · rw [Prod.mk.injEq] at h4
            exact absurd h4.2.symm (hnotnum s.value)
          · exact ⟨h1, h2, h3, h4⟩

theorem status_of_mem_replicationResSamples (t : String) (res : Json) (s : ScrapeResult)
    (h : s ∈ replicationResSamples t res) : s.status ≠ "failure_nodes" := by
  unfold replicationResSamples at h
  rcases List.mem_append.mp h with h | h
  · rcases List.mem_append.mp h with h | h
    · cases h1 : (lookupAssoc res "replication_time").bind asFloat with
      | some v =>
        rw [h1] at h
        simp only [List.mem_singleton] at h
        subst h
        show ¬"" = "failure_nodes"
        decide
      | none =>
        rw [h1] at h
        simp at h
    · cases h1 : (lookupAssoc res "replication_last").bind asFloat with
      | some v =>
        rw [h1] at h
        simp only [List.mem_singleton] at h
        subst h
        show ¬"" = "failure_nodes"
        decide
      | none =>
        rw [h1] at h
        simp at h
  · cases h1 : (lookupAssoc res "replication_stats").bind asObj with
    | some stats =>
      rw [h1] at h
      exact ((mem_replicationStatsSamples t stats s).mp h).2.2.1
    | none =>
      rw [h1] at h
      simp at h

theorem status_of_mem_scrapeReplicationGo (up : Upstream) (addr : String) :
    ∀ (ts : List String) (s : ScrapeResult),
      s ∈ scrapeReplicationGo up addr ts → s.status ≠ "failure_nodes" := by
  intro ts
  induction ts with
  | nil =>
    intro s h
    simp [scrapeReplicationGo] at h
  | cons t ts ih =>
    intro s h
    simp only [scrapeReplicationGo] at h
    cases hr : request up addr ("replication/" ++ t) with
    | none =>
      rw [hr] at h
      simp at h
    | some res =>
      rw [hr] at h
      simp only [List.mem_append] at h
      rcases h with h | h
      · exact status_of_mem_replicationResSamples t res s h
      · exact ih s h

/-! Claim theorems. Concrete upstream fixtures used by witnesses and
counterexamples follow. -/

/-- An upstream that fails every fetch. -/
def upNone : Upstream := fun _ => none

/-- An upstream where only `replication/container` succeeds (with a numeric
`replication_time`); every other fetch — in particular
`replication/account` — fails. -/
def upRepHalf : Upstream := fun url =>
  if url = "a/recon/replication/container" then some [("replication_time", JsonValue.num 1)]
  else none

/-- An upstream where only `replication/container` succeeds, with a
`replication_stats` object holding one numeric key and a nested
`failure_nodes` object. -/
def upStatsW : Upstream := fun url =>
  if url = "a/recon/replication/container" then
    some [("replication_stats",
      JsonValue.obj [("success", JsonValue.num 10), ("failure_nodes", JsonValue.obj [])])]
  else none

/-- Claim C1, amended: a fetch or JSON-decode error makes the sub-scrape
emit nothing from the failing fetch onward — the failing loop iteration
and all remaining iterations contribute zero samples (so an error on the
sub-scrape's first fetch yields zero samples overall) and, the sub-scrapes
being total functions, no error is raised out of the collection cycle;
samples emitted by iterations before the failure are retained. -/
theorem subScrape_fetch_error_aborts_remaining :
    (∀ (up : Upstream) (addr : String),
        request up addr "async" = none → scrapeAsync up addr = []) ∧
    (∀ (up : Upstream) (addr t : String) (ts : List String),
        request up addr ("replication/" ++ t) = none →
          scrapeReplicationGo up addr (t :: ts) = []) ∧
    (∀ (up : Upstream) (addr t : String) (ts : List String),
        request up addr ("updater/" ++ t) = none →
          scrapeUpdaterGo up addr (t :: ts) = []) ∧
    (∀ (up : Upstream) (addr t : String) (ts : List String),
        request up addr ("expirer/" ++ t) = none →
          scrapeExpirerGo up addr (t :: ts) = []) ∧
    (∀ (up : Upstream) (addr : String),
        request up addr "quarantined" = none → scrapeQuarantined up addr = []) := by
  refine ⟨?_, ?_, ?_, ?_, ?_⟩
  · intro up addr h
    simp [scrapeAsync, h]
  · intro up addr t ts h
    simp [scrapeReplicationGo, h]
  · intro up addr t ts h
    simp [scrapeUpdaterGo, h]
  · intro up addr t ts h
    simp [scrapeExpirerGo, h]
  · intro up addr h
    simp [scrapeQuarantined, h]

/-- Witness for claim C1's amended theorem at the all-failing upstream:
every sub-scrape whose first fetch errors emits zero samples. -/
theorem subScrape_fetch_error_aborts_remaining_witness :
    scrapeAsync upNone "a" = [] ∧
    scrapeReplicationGo upNone "a" ["container", "account", "object"] = [] ∧
    scrapeUpdaterGo upNone "a" ["container", "object"] = [] ∧
    scrapeExpirerGo upNone "a" ["object"] = [] ∧
    scrapeQuarantined upNone "a" = [] :=
  ⟨subScrape_fetch_error_aborts_remaining.1 upNone "a" rfl,
   subScrape_fetch_error_aborts_remaining.2.1 upNone "a" "container" ["account", "object"] rfl,
   subScrape_fetch_error_aborts_remaining.2.2.1 upNone "a" "container" ["object"] rfl,
   subScrape_fetch_error_aborts_remaining.2.2.2.1 upNone "a" "object" [] rfl,
   subScrape_fetch_error_aborts_remaining.2.2.2.2 upNone "a" rfl⟩

/-- Counterexample to claim C1 as stated: with `upRepHalf` a fetch error
does occur during the replication sub-scrape (`replication/account`
fails), yet the sub-scrape emits one sample — the one already sent for
`replication/container` — not zero. -/
theorem scrapeReplication_error_keeps_earlier_samples :
    request upRepHalf "a" "replication/account" = none ∧
    scrapeReplication upRepHalf "a" =
      [{ name := "replication_time", value := 1, type := "container", status := "" }] :=
  ⟨by with_unfolding_all rfl, by with_unfolding_all decide⟩

/-- Claim C4: over any `replication_stats` string-keyed map, the iteration
emits exactly one `replication_stats` sample per key whose value is
numeric, never one for the key `failure_nodes`; and no sample of the whole
replication sub-scrape ever carries status `failure_nodes`. -/
theorem replication_stats_iteration_spec :
    (∀ (t : String) (stats : List (String × JsonValue)) (s : ScrapeResult),
        s ∈ replicationStatsSamples t stats ↔
          (s.name = "replication_stats" ∧ s.type = t ∧ s.status ≠ "failure_nodes" ∧
            (s.status, JsonValue.num s.value) ∈ stats)) ∧
    (∀ (up : Upstream) (addr : String) (s : ScrapeResult),
        s ∈ scrapeReplication up addr → s.status ≠ "failure_nodes") :=
  ⟨mem_replicationStatsSamples,
   fun up addr s h => status_of_mem_scrapeReplicationGo up addr _ s h⟩

/-- Witness for claim C4 at a concrete upstream: the sample emitted for
the numeric key `success` (alongside a `failure_nodes` sibling) does not
carry status `failure_nodes`. -/
theorem replication_stats_iteration_spec_witness :
    ({ name := "replication_stats", value := 10, type := "container", status := "success" }
        : ScrapeResult).status ≠ "failure_nodes" :=
  replication_stats_iteration_spec.2 upStatsW "a" _ (by with_unfolding_all decide)

/-- The default source address from main.go (`swift.addr` flag default). -/
def addr0 : String := "http://127.0.0.1:6000"

/-- The exporter as constructed at startup against the default address. -/
def exp0 : Exporter := (newSwiftExporter addr0).1

/-- An upstream where only `expirer/object` succeeds, reporting
`expired_last_pass = 7`. -/
def upExp : Upstream := fun url =>
  if url = addr0 ++ "/recon/expirer/object" then some [("expired_last_pass", JsonValue.num 7)]
  else none

/-- An exporter state whose total-scrape counter already holds 5, as it
would if the counter were cumulative. -/
def expFive : Exporter := { (newSwiftExporter "a").1 with totalScrapes := 5 }

/-- Claim C2, amended: far from being created once and left alone, the
three pipeline-health scalars are re-created (fresh, zero-valued) by
`initGauges` at the start of every collection cycle, so after any cycle
the total-scrape counter holds exactly 1 (the single `Inc()` of that
cycle), the error gauge holds 0, and the duration gauge holds that
cycle's elapsed time. -/
theorem pipeline_scalars_recreated_every_cycle :
    ∀ (e : Exporter) (up : Upstream) (elapsed : ℚ),
      (collect e up elapsed).1.totalScrapes = 1 ∧
      (collect e up elapsed).1.scrapeErrors = 0 ∧
      (collect e up elapsed).1.duration = elapsed := by
  intro e up elapsed
  refine ⟨?_, rfl, rfl⟩
  show (0 : ℚ) + 1 = 1
  exact zero_add 1

/-- Counterexample to claim C2 as stated: a collection cycle starting
from a counter value of 5 ends with counter value 1 — the cycle re-created
the scalar (restoring it to its initial 0 before the single increment),
so the counter is not monotonically non-decreasing across cycles. -/
theorem collect_resets_totalScrapes :
    expFive.totalScrapes = 5 ∧
    (collect expFive upNone 0).1.totalScrapes = 1 ∧
    (collect expFive upNone 0).1.totalScrapes < expFive.totalScrapes :=
  ⟨by with_unfolding_all rfl, by with_unfolding_all rfl, by with_unfolding_all decide⟩

/-- Claim C3, amended: the fixed catalog entry registered under the map
key `expirer_expired_last_pass` is exposed as a metric family named
`expired_last_pass` (not `expirer_expired_last_pass`) with label set
`{type}`, because its `GaugeOpts.Name` is `expired_last_pass`. -/
theorem expirer_expired_last_pass_entry_schema :
    ∀ e : Exporter,
      lookupAssoc (initGauges e).metrics "expirer_expired_last_pass" =
        some { ns := e.ns, name := "expired_last_pass", help := "expired_last_pass metric",
               labelNames := ["type"], cells := [] } := by
  intro e
  with_unfolding_all rfl

/-- Counterexample to claim C3 as stated: the catalog entry keyed
`expirer_expired_last_pass` carries family name `expired_last_pass`, and a
cycle whose expirer sub-scrape reports `expired_last_pass = 7` emits that
value under family `expired_last_pass`, never under a family named
`expirer_expired_last_pass`. -/
theorem expired_last_pass_family_name_counterexample :
    (lookupAssoc exp0.metrics "expirer_expired_last_pass").map GaugeVec.name =
      some "expired_last_pass" ∧
    "expired_last_pass" ≠ "expirer_expired_last_pass" ∧
    (collect exp0 upExp 0).2 =
      [Metric.scalar "exporter_last_scrape_duration_seconds" 0,
       Metric.scalar "exporter_scrapes_total" 1,
       Metric.scalar "exporter_last_scrape_error" 0,
       Metric.sample "expired_last_pass" [("type", "object")] 7] ∧
    Metric.sample "expirer_expired_last_pass" [("type", "object")] 7 ∉ (collect exp0 upExp 0).2 := by
  with_unfolding_all decide

theorem foldSample_of_lookup_some (ns : String) (m : List (String × GaugeVec))
    (scr : ScrapeResult) (g : GaugeVec) (h : lookupAssoc m scr.name = some g) :
    foldSample ns m scr = setVecCell m scr.name (labelsOf scr) scr.value := by
  simp only [foldSample, h]

/-- Claim C5: folding a sample whose name has no registry entry creates
exactly one new entry (with label dimensions `{type, status}`), growing
the map by one, and folding a second sample with the same
previously-unseen name creates no further entry. -/
theorem fold_unseen_name_creates_single_entry (ns : String)
    (metrics : List (String × GaugeVec)) (scr scr2 : ScrapeResult)
    (hAbsent : lookupAssoc metrics scr.name = none) (hname : scr2.name = scr.name) :
    entryCount (foldSample ns metrics scr) scr.name = 1 ∧
    (foldSample ns metrics scr).length = metrics.length + 1 ∧
    (lookupAssoc (foldSample ns metrics scr) scr.name).map GaugeVec.labelNames =
      some ["type", "status"] ∧
    entryCount (foldSample ns (foldSample ns metrics scr) scr2) scr.name = 1 ∧
    (foldSample ns (foldSample ns metrics scr) scr2).length = metrics.length + 1 := by
  have hfold : foldSample ns metrics scr =
      setVecCell
        (metrics ++
          [(scr.name,
            { ns := ns, name := scr.name, help := scr.name ++ " metric",
              labelNames := ["type", "status"], cells := [] })])
        scr.name (labelsOf scr) scr.value := by
    simp only [foldSample, hAbsent]
  have hcount1 : entryCount (foldSample ns metrics scr) scr.name = 1 := by
    rw [hfold, entryCount_setVecCell, entryCount_append,
      entryCount_eq_zero_of_lookupAssoc_none _ _ hAbsent]
    simp [entryCount]
  have hlen1 : (foldSample ns metrics scr).length = metrics.length + 1 := by
    rw [hfold, length_setVecCell, List.length_append]
    rfl
  have hlook1 : lookupAssoc (foldSample ns metrics scr) scr.name =
      some { ns := ns, name := scr.name, help := scr.name ++ " metric",
             labelNames := ["type", "status"],
             cells := setCell [] (labelsOf scr) scr.value } := by
    rw [hfold, lookupAssoc_setVecCell, if_pos rfl, lookupAssoc_append_self _ _ _ hAbsent,
      Option.map_some']
  have hlook2 : lookupAssoc (foldSample ns metrics scr) scr2.name =
      some { ns := ns, name := scr.name, help := scr.name ++ " metric",
             labelNames := ["type", "status"],
             cells := setCell [] (labelsOf scr) scr.value } := by
    rw [hname]
    exact hlook1
  have hfold2 : foldSample ns (foldSample ns metrics scr) scr2 =
      setVecCell (foldSample ns metrics scr) scr2.name (labelsOf scr2) scr2.value :=
    foldSample_of_lookup_some ns _ scr2 _ hlook2
  refine ⟨hcount1, hlen1, ?_, ?_, ?_⟩
  · rw [hlook1]
    rfl
  · rw [hfold2, entryCount_setVecCell]
    exact hcount1
  · rw [hfold2, length_setVecCell]
    exact hlen1

/-- A sample with a name outside the fixed catalog. -/
def wScr : ScrapeResult := { name := "object_auditor", value := 1, type := "a", status := "b" }

/-- A second sample with the same previously-unseen name. -/
def wScr2 : ScrapeResult := { name := "object_auditor", value := 2 }

/-- Witness for claim C5 at a concrete empty registry and the unseen name
`object_auditor`. -/
theorem fold_unseen_name_creates_single_entry_witness :
    lookupAssoc ([] : List (String × GaugeVec)) "object_auditor" = none ∧
    (entryCount (foldSample "swift" [] wScr) "object_auditor" = 1 ∧
     (foldSample "swift" [] wScr).length = 1 ∧
     (lookupAssoc (foldSample "swift" [] wScr) "object_auditor").map GaugeVec.labelNames =
       some ["type", "status"] ∧
     entryCount (foldSample "swift" (foldSample "swift" [] wScr) wScr2) "object_auditor" = 1 ∧
     (foldSample "swift" (foldSample "swift" [] wScr) wScr2).length = 1) :=
  ⟨rfl, fold_unseen_name_creates_single_entry "swift" [] wScr wScr2 rfl rfl⟩

/-- Claim C6: folding two samples with identical name and identical label
tuple but different values leaves the cell at that label tuple holding the
later sample's value and not the earlier one's — `Set` overwrites, it does
not accumulate. -/
theorem fold_overwrites_existing_cell (ns : String) (metrics : List (String × GaugeVec))
    (scr1 scr2 : ScrapeResult) (hname : scr1.name = scr2.name)
    (htype : scr1.type = scr2.type) (hstatus : scr1.status = scr2.status)
    (hval : scr1.value ≠ scr2.value) :
    ∃ g, lookupAssoc (foldSample ns (foldSample ns metrics scr1) scr2) scr2.name = some g ∧
      lookupAssoc (foldSample ns (foldSample ns metrics scr1) scr2) scr1.name = some g ∧
      lookupCell g.cells (labelsOf scr1) = some scr2.value ∧
      lookupCell g.cells (labelsOf scr2) = some scr2.value ∧
      lookupCell g.cells (labelsOf scr2) ≠ some scr1.value := by
  obtain ⟨g, hg, hcell⟩ := lookupAssoc_foldSample_self ns (foldSample ns metrics scr1) scr2
  have hlab : labelsOf scr1 = labelsOf scr2 := by
    unfold labelsOf
    rw [htype, hstatus]
  refine ⟨g, hg, ?_, ?_, hcell, ?_⟩
  · rw [hname]
    exact hg
  · rw [hlab]
    exact hcell
  · rw [hcell]
    intro hc
    exact hval (Option.some.inj hc).symm

/-- First sample of the C6 witness scenario. -/
def wOv1 : ScrapeResult := { name := "async", value := 1, status := "pending" }

/-- Second sample of the C6 witness scenario: same name and label tuple,
different value. -/
def wOv2 : ScrapeResult := { name := "async", value := 2, status := "pending" }

/-- Witness for claim C6 at a concrete registry: after folding values 1
then 2 at the same tuple, the cell holds 2 and not 1. -/
theorem fold_overwrites_existing_cell_witness :
    (1 : ℚ) ≠ 2 ∧
    (∃ g, lookupAssoc (foldSample "swift" (foldSample "swift" [] wOv1) wOv2) "async" = some g ∧
      lookupAssoc (foldSample "swift" (foldSample "swift" [] wOv1) wOv2) "async" = some g ∧
      lookupCell g.cells (labelsOf wOv1) = some 2 ∧
      lookupCell g.cells (labelsOf wOv2) = some 2 ∧
      lookupCell g.cells (labelsOf wOv2) ≠ some 1) :=
  ⟨by norm_num,
   fold_overwrites_existing_cell "swift" [] wOv1 wOv2 rfl rfl rfl (by with_unfolding_all decide)⟩

/-- Claim C7: `initGauges` discards every prior registry state — including
dynamically-registered entries from earlier folds — and re-creates exactly
the 8 fixed-catalog entries, in catalog order, all with empty cell maps. -/
theorem initGauges_fixed_catalog :
    ∀ e : Exporter,
      (initGauges e).metrics.map Prod.fst =
        ["async", "replication_time", "replication_last", "replication_stats",
         "updater_sweep", "expirer_expiration_pass", "expirer_expired_last_pass",
         "quarantined"] ∧
      (initGauges e).metrics.map (fun p => p.2.cells) = [[], [], [], [], [], [], [], []] :=
  fun _ => ⟨rfl, rfl⟩

/-- Claim C8: every collection cycle pushes the three pipeline-health
scalars to the caller — first the last-scrape duration, then the total
scrape count, then the last-scrape error status — before any gauge cells,
whatever the upstream did. -/
theorem collect_always_emits_health_scalars :
    ∀ (e : Exporter) (up : Upstream) (elapsed : ℚ),
      ∃ rest, (collect e up elapsed).2 =
        Metric.scalar "exporter_last_scrape_duration_seconds" elapsed ::
        Metric.scalar "exporter_scrapes_total" ((collect e up elapsed).1.totalScrapes) ::
        Metric.scalar "exporter_last_scrape_error" 0 :: rest :=
  fun e up elapsed => ⟨collectMetrics (collect e up elapsed).1.metrics, rfl⟩

/-- The upstream of the C9 scenario: only `quarantined` succeeds, with
`objects = 5`, `accounts = 0`, `containers = 2`. -/
def upQ : Upstream := fun url =>
  if url = addr0 ++ "/recon/quarantined" then
    some [("objects", JsonValue.num 5), ("accounts", JsonValue.num 0),
          ("containers", JsonValue.num 2)]
  else none

/-- Claim C9: with the quarantined fetch returning
`{"objects": 5, "accounts": 0, "containers": 2}` (and every other fetch
failing), the cycle emits exactly `quarantined{type="container"}=2`,
`quarantined{type="account"}=0` and `quarantined{type="object"}=5` beside
the three health scalars — each pluralised response key mapping to the
singular subsystem type label. -/
theorem quarantined_concrete_scenario :
    (collect exp0 upQ 0).2 =
      [Metric.scalar "exporter_last_scrape_duration_seconds" 0,
       Metric.scalar "exporter_scrapes_total" 1,
       Metric.scalar "exporter_last_scrape_error" 0,
       Metric.sample "quarantined" [("type", "container")] 2,
       Metric.sample "quarantined" [("type", "account")] 0,
       Metric.sample "quarantined" [("type", "object")] 5] := by
  with_unfolding_all rfl

/-- Claim C10: nothing ever assigns the `exporter_last_scrape_error`
gauge after its creation — whatever the starting state, upstream
behaviour and failure pattern, a cycle leaves it at 0 and emits 0 for it. -/
theorem scrapeErrors_never_assigned :
    ∀ (e : Exporter) (up : Upstream) (elapsed : ℚ),
      (collect e up elapsed).1.scrapeErrors = 0 ∧
      Metric.scalar "exporter_last_scrape_error" 0 ∈ (collect e up elapsed).2 :=
  fun e up elapsed => ⟨rfl, List.Mem.tail _ (List.Mem.tail _ (List.Mem.head _))⟩

end SwiftExporter
